import Mathlib

/-!
Verification development for the ai-chat-bot support-triage core.

Each Python module relevant to the claims is shallowly embedded as Lean
definitions over explicit state: enums from `app/models/enums.py`, the
escalation pipeline from `app/actions/escalation.py`, the SLA monitor from
`app/actions/sla_monitor.py`, hybrid routing from `app/actions/routing.py`,
the authenticated user context from `app/auth/context.py`, and the RBAC
retrieval gate from `app/rag/filters.py` and `app/rag/retriever.py`.

Timestamps are integers measured in minutes; sentiment scores and classifier
confidences are integers in hundredths (so the thresholds of the source -0.6, -0.4
and 0.75 become -60, -40 and 75), which keeps every numeric comparison exact
and kernel-computable. Python exceptions are modelled with `Except` and a
small error type. Database query results are lists; where SQL leaves row
order unspecified the embedding uses the order of the underlying table list.
-/

deriving instance DecidableEq for Except

namespace AiChatBot

/-- Time in minutes (e.g. `datetime.utcnow()` readings and SLA deadlines). -/
abbrev Time := ℤ

/-- Sentiment scores and classifier confidences, in hundredths. -/
abbrev Score := ℤ

/-- Python exceptions that the embedded code can raise. -/
inductive PyError where
  | valueError (msg : String)
  | typeError
  | permissionError
  | transientDependencyError
  | integrityError
  deriving DecidableEq, Repr

/-- Enum `TicketStatus` from `app/models/enums.py`. -/
inductive TicketStatus where
  | OPEN
  | IN_PROGRESS
  | RESOLVED
  | CLOSED
  deriving DecidableEq, Repr

/-- Enum `TicketPriority` from `app/models/enums.py`. -/
inductive TicketPriority where
  | LOW
  | MEDIUM
  | HIGH
  | CRITICAL
  deriving DecidableEq, Repr

/-- Severity rank for the ordering LOW < MEDIUM < HIGH < CRITICAL used by the
claims of the spec (the Python enum itself is a string enum with no order). -/
def TicketPriority.rank : TicketPriority → ℕ
  | .LOW => 0
  | .MEDIUM => 1
  | .HIGH => 2
  | .CRITICAL => 3

/-- Maximum of two priorities under LOW < MEDIUM < HIGH < CRITICAL. -/
def priorityMax (p q : TicketPriority) : TicketPriority :=
  if p.rank ≤ q.rank then q else p

/-- Strict comparison of priorities under LOW < MEDIUM < HIGH < CRITICAL. -/
def priorityLt (p q : TicketPriority) : Prop := p.rank < q.rank

instance (p q : TicketPriority) : Decidable (priorityLt p q) := by
  unfold priorityLt; infer_instance

/-- Model of the Python `needle in hay` substring test on strings. -/
def strContainsSub (hay needle : String) : Bool :=
  (List.range (hay.toList.length + 1)).any
    (fun i => needle.toList.isPrefixOf (hay.toList.drop i))

/-- Model of Python `str.lower()`, character by character. -/
def strLower (s : String) : String := ⟨s.toList.map Char.toLower⟩

/-- Model of Python `str.upper()`, character by character. -/
def strUpper (s : String) : String := ⟨s.toList.map Char.toUpper⟩

/-- Model of Python `str.startswith(p)`. -/
def strStartsWith (s p : String) : Bool := p.toList.isPrefixOf s.toList

/-- Emptiness of a string (Python: `""` is falsy). -/
def strIsEmpty (s : String) : Bool := s.toList.isEmpty

/-- Model of Python `str.strip()`: drop whitespace at both ends. -/
def strStrip (s : String) : String :=
  ⟨((s.toList.dropWhile Char.isWhitespace).reverse.dropWhile
      Char.isWhitespace).reverse⟩

/-- Truthiness of an optional string (Python: `None` and `""` are falsy). -/
def strTruthy : Option String → Bool
  | none => false
  | some s => !(strIsEmpty s)

/-- Truthiness of an optional list (Python: `None` and `[]` are falsy). -/
def listTruthy : Option (List String) → Bool
  | none => false
  | some l => !(l.isEmpty)

/-! ## Data model

Rows of the tables touched by the escalation / SLA subsystem, with the fields
the embedded code reads or writes. `Conversation` ids are strings (uuid
primary keys in `app/models/conversation.py`); note the model declares no
`department_id` column. `Ticket` mirrors `app/models/ticket.py`; it declares
`assigned_agent_id` but no `assigned_user_id`, no `reason`, no `message_id`,
no `last_message_id` and no `source` attribute, which decides several
`hasattr` guards in `app/actions/escalation.py`. -/

/-- Row of `conversations` (`app/models/conversation.py`). -/
structure Conversation where
  id : String
  status : String
  deriving DecidableEq, Repr

/-- Row of `messages` (`app/models/message.py`). -/
structure Message where
  id : ℕ
  conversation_id : String
  content : String
  sentiment_score : Option Score
  created_at : Time
  deriving DecidableEq, Repr

/-- Row of `tickets` (`app/models/ticket.py`), restricted to the columns the
escalation and SLA-monitor code reads or writes. `conversation_id` is declared
`unique=True` in the model (see `ticketsConversationIdUnique` below). -/
structure Ticket where
  id : ℕ
  conversation_id : String
  status : TicketStatus
  priority : TicketPriority
  created_at : Time
  updated_at : Time
  sla_due_at : Option Time
  sla_breached : Bool
  escalation_level : ℕ
  assigned_agent_id : Option String
  department_id : Option ℕ
  title : Option String
  deriving DecidableEq, Repr

/-- Row of `routing_rules` (`app/models/routing_rule.py`): ordered
(keyword, department_id) pairs. -/
structure RoutingRule where
  id : ℕ
  keyword : String
  department_id : ℕ
  deriving DecidableEq, Repr

/-- Row of `departments` (`app/models/department.py`). -/
structure Department where
  id : ℕ
  name : String
  deriving DecidableEq, Repr

/-- Row of `roles` (`app/models/role.py`). -/
structure Role where
  id : ℕ
  name : String
  deriving DecidableEq, Repr

/-- Row of `user_roles` (`app/models/user_role.py`). -/
structure UserRole where
  user_id : String
  role_id : ℕ
  deriving DecidableEq, Repr

/-- Row of `users` (`app/models/user.py`). The model declares `is_active`
and a free-text `department` name but no `department_id` column. -/
structure User where
  id : String
  is_active : Bool
  department : String
  deriving DecidableEq, Repr

/-- Row of `sla_policies` (`app/models/sla_policy.py`), keyed uniquely by
(department_id, priority). -/
structure SLAPolicy where
  id : ℕ
  department_id : ℕ
  priority : TicketPriority
  first_response_minutes : ℕ
  resolution_minutes : ℕ
  escalation_minutes : ℕ
  deriving DecidableEq, Repr

/-- Meta payload of a `chat_logs` row written by `_create_chat_log`
(`app/actions/escalation.py`). -/
structure ChatMeta where
  ticket_id : Option ℕ
  reason : Option String
  assigned_user_id : Option String
  department_id : Option ℕ
  deriving DecidableEq, Repr

/-- Row of `chat_logs` as written by `_create_chat_log`. -/
structure ChatLog where
  conversation_id : String
  event : String
  meta : ChatMeta
  created_at : Time
  deriving DecidableEq, Repr

/-- Row of `sentiment_logs` as written by `escalate_ticket`. -/
structure SentimentLog where
  conversation_id : String
  message_id : ℕ
  score : Option Score
  label : String
  created_at : Time
  deriving DecidableEq, Repr

/-- Database state seen by `app/actions/escalation.py`. List order stands in
for the (unspecified) database row order of unordered queries. -/
structure EscDB where
  conversations : List Conversation
  messages : List Message
  tickets : List Ticket
  routing_rules : List RoutingRule
  departments : List Department
  roles : List Role
  user_roles : List UserRole
  users : List User
  chat_logs : List ChatLog
  sentiment_logs : List SentimentLog
  deriving DecidableEq, Repr

/-! ## Attribute facts

`escalate_ticket` and `_pick_agent_for_department` probe model classes with
`hasattr`. These constants record, from the model files, which of the probed
attributes exist; each dead `hasattr` branch is noted at its use site. -/

/-- Fact about `hasattr(Ticket, "assigned_user_id")`: `app/models/ticket.py` declares
`assigned_agent_id` (and an `assigned_to_id` property) but no
`assigned_user_id`, so this is `False`. -/
def ticketHasAssignedUserIdAttr : Bool := false

/-- Fact about `hasattr(User, "department_id")`: `app/models/user.py` declares a string
`department` column but no `department_id`, so this is `False`. -/
def userHasDepartmentIdAttr : Bool := false

/-- Fact about `hasattr(ticket, "reason")` / `"message_id"` / `"last_message_id"` /
`"source"`: none of these columns exist on `app/models/ticket.py`. -/
def ticketHasReasonAttr : Bool := false

/-! ## `app/actions/escalation.py` -/

/-- Constant `DEFAULT_REPEAT_WINDOW_HOURS` from `app/actions/escalation.py`. -/
def DEFAULT_REPEAT_WINDOW_HOURS : ℤ := 3

/-- Embedding of `_pick_priority` from `app/actions/escalation.py`: priority from the
sentiment score of the latest message alone. -/
def pickPriority : Option Score → TicketPriority
  | none => TicketPriority.MEDIUM
  | some s =>
      if s ≤ (-60 : ℤ) then TicketPriority.HIGH
      else if s ≤ (-40 : ℤ) then TicketPriority.MEDIUM
      else TicketPriority.LOW

/-- Embedding of `_resolve_department` from `app/actions/escalation.py`. The first branch
(`getattr(conversation, "department_id", None)`) is always `None` because the
`Conversation` model declares no such column, so only keyword routing runs:
the first rule whose non-empty keyword is a lowercase substring of the message
text decides, and the result is the department lookup of that rule (possibly
`none` if the foreign key dangles). -/
def resolveDepartment (db : EscDB) (_conversation : Conversation)
    (messageText : String) : Option Department :=
  let text := strLower messageText
  match db.routing_rules.find?
      (fun r => !(strIsEmpty r.keyword) &&
        strContainsSub text (strLower r.keyword)) with
  | some r => db.departments.find? (fun d => d.id == r.department_id)
  | none => none

/-- Candidate agent ids inside `_pick_agent_for_department`: users joined to
`user_roles` on the AGENT role id, filtered to `is_active` (the guard
`hasattr(User, "is_active")` holds). The `department_id` filter is guarded by
`userHasDepartmentIdAttr = false` and therefore never applied. -/
def agentCandidates (db : EscDB) (agentRoleId : ℕ) : List String :=
  (db.users.filter
      (fun u => u.is_active &&
        db.user_roles.any (fun ur => ur.user_id == u.id && ur.role_id == agentRoleId))).map
    (fun u => u.id)

/-- Embedding of `_pick_agent_for_department` from `app/actions/escalation.py`. After the
candidate query, the least-open-tickets counting and sort are guarded by
`hasattr(Ticket, "assigned_user_id")`, i.e. `ticketHasAssignedUserIdAttr =
false`, so they never run and the head of the candidate list (in database
row order) is returned. -/
def pickAgentForDepartment (db : EscDB) (departmentId : Option ℕ) : Option String :=
  match db.roles.find? (fun r => strLower r.name == "agent") with
  | none => none
  | some agentRole =>
      let agentIds := agentCandidates db agentRole.id
      -- `if department_id and hasattr(User, "department_id")`: dead, see
      -- `userHasDepartmentIdAttr`.
      let agentIds := if departmentId.isSome && userHasDepartmentIdAttr
        then agentIds else agentIds
      if agentIds.isEmpty then none
      -- `if hasattr(Ticket, "assigned_user_id")`: dead, see
      -- `ticketHasAssignedUserIdAttr`; no counting or sorting happens.
      else agentIds.head?

/-- The existing-ticket query in `escalate_ticket`: OPEN tickets of the
conversation created within the window, ordered by `created_at` descending,
`.first()` — i.e. the first listed ticket with maximal `created_at`. -/
def findExistingTicket (tickets : List Ticket) (conversationId : String)
    (windowStart : Time) : Option Ticket :=
  ((tickets.filter
      (fun t => t.conversation_id == conversationId &&
        t.status == TicketStatus.OPEN && windowStart ≤ t.created_at)).foldl
    (fun acc t =>
      match acc with
      | none => some t
      | some b => if b.created_at < t.created_at then some t else some b)
    none)

/-- Fresh ticket id, modelling the autoincrement primary key. -/
def freshTicketId (tickets : List Ticket) : ℕ :=
  (tickets.foldl (fun m t => max m t.id) 0) + 1

/-- Embedding of `escalate_ticket` from `app/actions/escalation.py` (happy path of the
commit; the `try` blocks around the log writes never fail in the pure model).
Returns the new database state, the returned ticket and the `created_new`
flag. On the reuse path only `priority` and `updated_at` change: the guards
`hasattr(existing, "last_message_id")`, `"message_id"` and `"reason"` are all
`False` on the Ticket model. On the create path `assigned_user_id` is
computed but never stored (`hasattr(ticket, "assigned_user_id")` is `False`);
it only reaches the chat-log meta. -/
def escalateTicket (db : EscDB) (now : Time) (conversationId : String)
    (messageId : ℕ) (reason : String) (sentimentScore : Option Score)
    (repeatWindowHours : ℤ) : Except PyError (EscDB × Ticket × Bool) :=
  match db.conversations.find? (fun c => c.id == conversationId) with
  | none => .error (.valueError "Conversation not found")
  | some conversation =>
    match db.messages.find? (fun m => m.id == messageId) with
    | none => .error (.valueError "Message not found")
    | some message =>
      let windowStart := now - repeatWindowHours * 60
      let sentLog : SentimentLog :=
        { conversation_id := conversationId, message_id := messageId,
          score := sentimentScore,
          label := match sentimentScore with
            | some s => if s < 0 then "negative" else "neutral"
            | none => "neutral",
          created_at := now }
      let db1 := { db with sentiment_logs := db.sentiment_logs ++ [sentLog] }
      match findExistingTicket db1.tickets conversationId windowStart with
      | some existing =>
          let updated := { existing with
            priority := pickPriority sentimentScore,
            updated_at := now }
          let log : ChatLog :=
            { conversation_id := conversationId,
              event := "ticket_escalation_reused",
              meta := { ticket_id := some existing.id, reason := some reason,
                        assigned_user_id := none, department_id := none },
              created_at := now }
          let db2 := { db1 with
            tickets := db1.tickets.map
              (fun t => if t.id == existing.id then updated else t),
            chat_logs := db1.chat_logs ++ [log] }
          .ok (db2, updated, false)
      | none =>
          let messageText := strStrip message.content
          let dept := resolveDepartment db1 conversation messageText
          let assignedUserId :=
            pickAgentForDepartment db1 (dept.map (fun d => d.id))
          let ticket : Ticket :=
            { id := freshTicketId db1.tickets,
              conversation_id := conversationId,
              status := TicketStatus.OPEN,
              priority := pickPriority sentimentScore,
              created_at := now, updated_at := now,
              sla_due_at := none, sla_breached := false,
              escalation_level := 0,
              -- `ticket.assigned_user_id` is never set: the attribute does
              -- not exist on the model (`ticketHasAssignedUserIdAttr`).
              assigned_agent_id := none,
              department_id := dept.map (fun d => d.id),
              title := some "Auto Escalation" }
          let log : ChatLog :=
            { conversation_id := conversationId,
              event := "ticket_escalated",
              meta := { ticket_id := none, reason := some reason,
                        assigned_user_id := assignedUserId,
                        department_id := dept.map (fun d => d.id) },
              created_at := now }
          let db2 := { db1 with
            tickets := db1.tickets ++ [ticket],
            chat_logs := db1.chat_logs ++ [log] }
          .ok (db2, ticket, true)

/-! ## `app/actions/sla_monitor.py` -/

/-- The ticket selection of `check_sla_breach`:
`sla_due_at != None`, `status == OPEN`, `sla_due_at < now`. The WHERE clause
has no condition on `sla_breached`. -/
def slaSelect (tickets : List Ticket) (now : Time) : List Ticket :=
  tickets.filter (fun t =>
    t.sla_due_at.isSome && t.status == TicketStatus.OPEN &&
      (match t.sla_due_at with
       | some d => decide (d < now)
       | none => false))

/-- The call `escalate_ticket(db, ticket)` at `app/actions/sla_monitor.py`
line 30. The callee `escalate_ticket` (`app/actions/escalation.py`) declares
`conversation_id` and `message_id` as required keyword-only parameters
(`def escalate_ticket(db, *, conversation_id, message_id, ...)`), and this
call site passes `ticket` positionally and supplies no keywords, so the
Python runtime rejects the call with a `TypeError` before the callee body
runs. -/
def escalateTicketPositionalCall (_tickets : List Ticket) (_t : Ticket) :
    Except PyError Unit :=
  .error .typeError

/-- Embedding of `check_sla_breach` from `app/actions/sla_monitor.py`. For each selected
ticket the loop sets `sla_breached = True`, then calls
`escalate_ticket(db, ticket)` and `notify_manager(db, ticket)`; the final
`db.commit()` only runs if the loop finishes. An exception inside the loop is
uncaught and aborts the tick. Returns the ticket table after the loop, the
selection count, and the ids notified (in order). -/
def checkSlaBreach (tickets : List Ticket) (now : Time) :
    Except PyError (List Ticket × ℕ × List ℕ) :=
  let selected := slaSelect tickets now
  let step := fun (acc : Except PyError (List Ticket × List ℕ)) (t : Ticket) =>
    match acc with
    | .error e => .error e
    | .ok (ts, notified) =>
        let ts := ts.map
          (fun u => if u.id == t.id then { u with sla_breached := true } else u)
        match escalateTicketPositionalCall ts t with
        | .error e => .error e
        | .ok _ => .ok (ts, notified ++ [t.id])
  match selected.foldl step (.ok (tickets, [])) with
  | .error e => .error e
  | .ok (ts, notified) => .ok (ts, selected.length, notified)

/-! ## `app/actions/routing.py` -/

/-- Constant `AI_CONFIDENCE_THRESHOLD` from `app/actions/routing.py`
(0.75, in hundredths). -/
def AI_CONFIDENCE_THRESHOLD : Score := 75

/-- The view of a ticket that `route_ticket` reads and writes. The live
`apply_sla_policy` (the second definition in `app/actions/routing.py`, which
shadows the first) returns a dict with `first_response_due` and
`resolution_due`, and `route_ticket` stores that dict into `sla_due_at`;
the field is therefore a pair of times here. -/
structure RTicket where
  department_id : Option ℕ
  priority : TicketPriority
  sla_due_at : Option (Time × Time)
  routing_method : Option String
  ai_confidence : Option Score
  ai_predicted_department : Option String
  deriving DecidableEq, Repr

/-- Database state seen by `app/actions/routing.py`. -/
structure RoutingDB where
  routing_rules : List RoutingRule
  departments : List Department
  sla_policies : List SLAPolicy
  deriving DecidableEq, Repr

/-- Embedding of `detect_department` from `app/actions/routing.py`: first routing rule
whose lowercased keyword is a substring of the lowercased message text; the
result is the `department` relationship of that rule (its department row, `none`
if the foreign key dangles). -/
def detectDepartment (db : RoutingDB) (messageContent : String) :
    Option Department :=
  let messageLower := strLower messageContent
  match db.routing_rules.find?
      (fun r => strContainsSub messageLower (strLower r.keyword)) with
  | some r => db.departments.find? (fun d => d.id == r.department_id)
  | none => none

/-- The live `apply_sla_policy` (second definition in
`app/actions/routing.py`): unique (department_id, priority) lookup returning
the dict `{first_response_due, resolution_due}`, or `None` when no policy row
exists (an explicit, allowed outcome). -/
def applySlaPolicy (db : RoutingDB) (now : Time) (departmentId : ℕ)
    (priority : TicketPriority) : Option (Time × Time) :=
  match db.sla_policies.find?
      (fun p => p.department_id == departmentId && p.priority == priority) with
  | none => none
  | some policy =>
      some (now + (policy.first_response_minutes : ℤ),
            now + (policy.resolution_minutes : ℤ))

/-- Embedding of `route_ticket` from `app/actions/routing.py`. The classifier outcome is
an input: `.ok (name?, confidence)` models a normal return of
`orchestrator.classify_department`, `.error e` models the call raising.
There is no `try`/`except` in `route_ticket`, so a raised classifier error
propagates to the caller and nothing after step 1 runs. In the AI branch,
`routing_method = "AI"` is assigned as soon as the prediction is truthy with
confidence ≥ 0.75 — before (and regardless of whether) the predicted name
resolves to a known department. -/
def routeTicket (classifierResult : Except PyError (Option String × Score))
    (db : RoutingDB) (now : Time) (messageContent : String) (ticket : RTicket) :
    Except PyError RTicket :=
  match classifierResult with
  | .error e => .error e
  | .ok (aiDepartmentName, aiConfidence) =>
      let aiPredicted := aiDepartmentName
      let aiConfidenceValue := some aiConfidence
      -- 1) AI classification branch
      let aiBranch := strTruthy aiDepartmentName &&
        decide (AI_CONFIDENCE_THRESHOLD ≤ aiConfidence)
      let chosen0 : Option Department :=
        if aiBranch then
          db.departments.find? (fun d => some d.name == aiDepartmentName)
        else none
      let routing0 : Option String := if aiBranch then some "AI" else none
      -- 2) fallback: runs whenever no department was chosen, even when the
      -- AI branch already set routing_method = "AI"
      let (chosen, routingMethod) :=
        match chosen0 with
        | some d => (some d, routing0)
        | none =>
            match detectDepartment db messageContent with
            | some d => (some d, some "FALLBACK")
            | none => (none, routing0)
      -- 3) apply SLA
      let ticket :=
        match chosen with
        | some d => { ticket with
            department_id := some d.id,
            sla_due_at := applySlaPolicy db now d.id ticket.priority }
        | none => ticket
      -- 4) analytics logging (always persisted)
      .ok { ticket with
        routing_method := routingMethod,
        ai_confidence := aiConfidenceValue,
        ai_predicted_department := aiPredicted }

/-! ## `app/auth/context.py` -/

/-- Class `UserContext` from `app/auth/context.py`. -/
structure UserContext where
  user_id : String
  roles : List String
  department : String
  is_verified : Bool
  allowed_visibility : List String
  deriving DecidableEq, Repr

/-- Embedding of `UserContext._resolve_visibility` from `app/auth/context.py`: the check
is exact membership of the string `"ADMIN"` in the (already uppercased) role
list, then any role starting with `"HR"`, else public only. -/
def resolveVisibility (roles : List String) : List String :=
  if roles.contains "ADMIN" then ["PUBLIC", "INTERNAL", "CONFIDENTIAL"]
  else if roles.any (fun r => strStartsWith r "HR") then ["PUBLIC", "INTERNAL"]
  else ["PUBLIC"]

/-- Embedding of `UserContext.__init__` from `app/auth/context.py`: empty `user_id`
raises `ValueError`; a truthy `roles` list wins over a truthy single `role`,
else the roles default to `["USER"]`; everything is uppercased; the
department defaults to `"GENERAL"`; `allowed_visibility` is resolved from the
roles. -/
def mkUserContext (userId : String) (role : Option String)
    (roles : Option (List String)) (department : Option String)
    (isVerified : Bool) : Except PyError UserContext :=
  if strIsEmpty userId then .error (.valueError "user_id is required")
  else
    let rs : List String :=
      if listTruthy roles then (roles.getD []).map strUpper
      else if strTruthy role then [strUpper (role.getD "")]
      else ["USER"]
    let dep := strUpper (if strTruthy department then department.getD "" else "GENERAL")
    .ok { user_id := userId, roles := rs, department := dep,
          is_verified := isVerified,
          allowed_visibility := resolveVisibility rs }

/-! ## `app/rag/filters.py` and `app/rag/retriever.py` -/

/-- A Qdrant payload condition (`match_any` / `match_value` in
`app/rag/filters.py`, `FieldCondition` in `app/rag/retriever.py`). -/
inductive QCond where
  | matchAnyCond (key : String) (values : List String)
  | matchValueCond (key : String) (value : String)
  deriving DecidableEq, Repr

/-- The filter payload built by `build_filters` (`app/rag/filters.py`);
empty lists stand for omitted keys. -/
structure FilterPayload where
  must : List QCond
  must_not : List QCond
  deriving DecidableEq, Repr

/-- Embedding of `build_filters` from `app/rag/filters.py`. -/
def buildFilters (must mustNot : List QCond) : FilterPayload :=
  { must := must, must_not := mustNot }

/-- Embedding of `build_rbac_filters` from `app/rag/filters.py`: fail-closed on an absent
or unverified context, else a `must` list of a role match, a visibility match
and (when the department of the context is truthy) a department match. -/
def buildRbacFilters (userContext : Option UserContext) :
    Except PyError FilterPayload :=
  match userContext with
  | none => .error .permissionError
  | some ctx =>
      if !ctx.is_verified then .error .permissionError
      else
        let baseMust : List QCond :=
          [.matchAnyCond "allowed_roles" ctx.roles,
           .matchAnyCond "visibility" ctx.allowed_visibility]
        let must := if !(strIsEmpty ctx.department)
          then baseMust ++ [.matchValueCond "department" ctx.department]
          else baseMust
        .ok (buildFilters must [])

/-- The Qdrant filter built inside `retrieve_context`
(`app/rag/retriever.py`): `must` conditions plus optional `should` ticket-id
condition; `none` for admins (no filter at all). -/
structure QFilter where
  must : List QCond
  should : List QCond
  deriving DecidableEq, Repr

/-- Embedding of `retrieve_context` from `app/rag/retriever.py`, with the embedding and
the vector search abstracted into the `search` collaborator (a function of
the query, the limit and the filter). The PermissionError check runs before
any filter is built and before `search` is invoked. -/
def retrieveContext (search : String → ℕ → Option QFilter → List String)
    (query : String) (userContext : Option UserContext)
    (ticketId : Option String) (topK : ℕ) : Except PyError (List String) :=
  match userContext with
  | none => .error .permissionError
  | some ctx =>
      if !ctx.is_verified then .error .permissionError
      else
        let userRoles := ctx.roles.map strUpper
        let isAdmin := userRoles.contains "ADMIN" || userRoles.contains "SUPERADMIN"
        let qFilter : Option QFilter :=
          if isAdmin then none
          else
            let must : List QCond :=
              [.matchAnyCond "allowed_roles" userRoles,
               .matchAnyCond "visibility" ctx.allowed_visibility]
            let must := if !(strIsEmpty ctx.department)
              then must ++ [.matchValueCond "department" ctx.department]
              else must
            let should : List QCond :=
              match ticketId with
              | some tid => [.matchValueCond "ticket_id" tid]
              | none => []
            some { must := must, should := should }
        .ok (search query topK qFilter)

/-! ## `app/sentiment/rules.py` — configured escalation keywords -/

/-- Constant `ESCALATION_KEYWORDS` from `app/sentiment/rules.py`, flattened in
declaration order. -/
def escalationKeywords : List String :=
  ["angry", "furious", "enraged", "outraged",
   "urgent", "asap", "immediately", "emergency", "critical",
   "complaint", "complain", "issue", "problem", "broken",
   "refund", "money back", "return", "cancel", "charge"]

/-- Case-insensitive test that a message contains a configured escalation
keyword (the containment check of `detect_escalation_triggers` in
`app/sentiment/rules.py`: `keyword in text.lower()`). -/
def containsEscalationKeyword (text : String) : Bool :=
  escalationKeywords.any (fun k => strContainsSub (strLower text) k)

/-! ## The unique constraint on `tickets.conversation_id` -/

/-- The constraint declared by `app/models/ticket.py`:
`conversation_id` is `unique=True` with no condition on status or age, so
every pair of distinct ticket rows has distinct conversation ids. -/
def ticketsConversationIdUnique (tickets : List Ticket) : Prop :=
  (tickets.map (fun t => t.conversation_id)).Nodup

instance (tickets : List Ticket) :
    Decidable (ticketsConversationIdUnique tickets) := by
  unfold ticketsConversationIdUnique; infer_instance

/-- Insertion of a ticket row under the declared unique constraint on
`conversation_id`: a second row for an already-present conversation is
rejected with an integrity error, regardless of the status or age of the
stored tickets. -/
def insertTicket (tickets : List Ticket) (t : Ticket) :
    Except PyError (List Ticket) :=
  if tickets.any (fun u => u.conversation_id == t.conversation_id)
  then .error .integrityError
  else .ok (tickets ++ [t])

/-- Weaker invariant of the spec (`spec.md` §3): among the tickets that are
OPEN and created within `window` of `now`, conversation ids are unique. -/
def atMostOneOpenPerWindow (tickets : List Ticket) (now window : Time) : Prop :=
  ((tickets.filter (fun t => t.status == TicketStatus.OPEN &&
      now - window ≤ t.created_at)).map (fun t => t.conversation_id)).Nodup

instance (tickets : List Ticket) (now window : Time) :
    Decidable (atMostOneOpenPerWindow tickets now window) := by
  unfold atMostOneOpenPerWindow; infer_instance

/-! ## Claim-side definitions

Definitions written from the words of the claims (not from the source),
used to compare the statements of the spec with the embedded code. -/

/-- Number of currently OPEN tickets assigned to an agent: the load score in
the least-loaded agent selection of the claim. -/
def openAssignedCount (tickets : List Ticket) (agentId : String) : ℕ :=
  (tickets.filter (fun t => t.status == TicketStatus.OPEN &&
    t.assigned_agent_id == some agentId)).length

/-- Routing outcome (routing_method, department_id) as stated by the amended
routing claim: a truthy prediction with confidence ≥ 0.75 that resolves to a
known department gives "AI" with that department; otherwise a matching
keyword rule gives "FALLBACK" with its department; otherwise the department
is left unchanged and routing_method is "AI" exactly when the prediction was
truthy with confidence ≥ 0.75 (it is null only otherwise). -/
def amendedRoutingOutcome (aiName : Option String) (confidence : Score)
    (db : RoutingDB) (messageContent : String) (ticket : RTicket) :
    Option String × Option ℕ :=
  let confident := strTruthy aiName &&
    decide (AI_CONFIDENCE_THRESHOLD ≤ confidence)
  match (if confident
      then db.departments.find? (fun d => some d.name == aiName)
      else none) with
  | some d => (some "AI", some d.id)
  | none =>
      match detectDepartment db messageContent with
      | some d => (some "FALLBACK", some d.id)
      | none => ((if confident then some "AI" else none), ticket.department_id)

/-! ## Test fixtures

Concrete database states used by the counterexample and witness theorems. -/

/-- A conversation with one OPEN ticket. -/
def convA : Conversation := { id := "c1", status := "OPEN" }

/-- The latest message of `convA`, neutral sentiment. -/
def msgA : Message :=
  { id := 1, conversation_id := "c1", content := "hello",
    sentiment_score := some 0, created_at := 0 }

/-- An OPEN HIGH-priority ticket for `convA`, created one hour ago at
`now = 10`, i.e. inside the 3-hour repeat window. -/
def ticketHighA : Ticket :=
  { id := 1, conversation_id := "c1", status := .OPEN, priority := .HIGH,
    created_at := 9, updated_at := 9, sla_due_at := none,
    sla_breached := false, escalation_level := 0, assigned_agent_id := none,
    department_id := none, title := none }

/-- Database with an existing reusable OPEN ticket. -/
def dbReuse : EscDB :=
  { conversations := [convA], messages := [msgA], tickets := [ticketHighA],
    routing_rules := [], departments := [], roles := [], user_roles := [],
    users := [], chat_logs := [], sentiment_logs := [] }

/-- An OPEN ticket whose SLA deadline passed and whose breach flag was
already set on an earlier monitor tick. -/
def ticketBreached : Ticket :=
  { id := 7, conversation_id := "c1", status := .OPEN, priority := .HIGH,
    created_at := 9, updated_at := 9, sla_due_at := some 100,
    sla_breached := true, escalation_level := 0, assigned_agent_id := none,
    department_id := none, title := none }

/-- A message whose text contains the configured escalation keyword
"urgent" but whose sentiment is neutral (0.1, i.e. 10 in hundredths). -/
def msgKeyword : Message :=
  { id := 2, conversation_id := "c2", content := "this is urgent please",
    sentiment_score := some 10, created_at := 0 }

/-- The conversation of `msgKeyword`, with no existing ticket. -/
def convB : Conversation := { id := "c2", status := "OPEN" }

/-- Database for the keyword-escalation scenario: no existing ticket. -/
def dbKeyword : EscDB :=
  { conversations := [convB], messages := [msgKeyword], tickets := [],
    routing_rules := [], departments := [], roles := [], user_roles := [],
    users := [], chat_logs := [], sentiment_logs := [] }

/-- A fresh unrouted ticket view. -/
def rticket0 : RTicket :=
  { department_id := none, priority := .MEDIUM, sla_due_at := none,
    routing_method := none, ai_confidence := none,
    ai_predicted_department := none }

/-- Routing database with no department named "IT" and no routing rules. -/
def dbNoIT : RoutingDB :=
  { routing_rules := [], departments := [{ id := 1, name := "Finance" }],
    sla_policies := [] }

/-- Routing database with a keyword rule "password" → department 1 (IT). -/
def dbPassword : RoutingDB :=
  { routing_rules := [{ id := 1, keyword := "password", department_id := 1 }],
    departments := [{ id := 1, name := "IT" }], sla_policies := [] }

/-- A user context that is present but not verified. -/
def unverifiedCtx : UserContext :=
  { user_id := "u1", roles := ["USER"], department := "GENERAL",
    is_verified := false, allowed_visibility := ["PUBLIC"] }

/-- Active agent "a2", listed first in the users table. -/
def agentA2 : User := { id := "a2", is_active := true, department := "General" }

/-- Active agent "a1", listed second in the users table. -/
def agentA1 : User := { id := "a1", is_active := true, department := "General" }

/-- An OPEN ticket currently assigned to agent "a2". -/
def ticketOfA2 : Ticket :=
  { id := 11, conversation_id := "c9", status := .OPEN, priority := .HIGH,
    created_at := 9, updated_at := 9, sla_due_at := none,
    sla_breached := false, escalation_level := 0,
    assigned_agent_id := some "a2", department_id := none, title := none }

/-- Database for agent picking: both users hold the AGENT role and are
active; "a2" already has one OPEN ticket, "a1" has none. -/
def dbAgents : EscDB :=
  { conversations := [], messages := [], tickets := [ticketOfA2],
    routing_rules := [], departments := [],
    roles := [{ id := 1, name := "Agent" }],
    user_roles := [{ user_id := "a2", role_id := 1 },
                   { user_id := "a1", role_id := 1 }],
    users := [agentA2, agentA1], chat_logs := [], sentiment_logs := [] }

/-- A CLOSED ticket of conversation "cX". -/
def ticketClosedX : Ticket :=
  { id := 20, conversation_id := "cX", status := .CLOSED, priority := .LOW,
    created_at := 0, updated_at := 0, sla_due_at := none,
    sla_breached := false, escalation_level := 0, assigned_agent_id := none,
    department_id := none, title := none }

/-- A later OPEN ticket of the same conversation "cX". -/
def ticketOpenX : Ticket :=
  { id := 21, conversation_id := "cX", status := .OPEN, priority := .LOW,
    created_at := 5, updated_at := 5, sla_due_at := none,
    sla_breached := false, escalation_level := 0, assigned_agent_id := none,
    department_id := none, title := none }

/-! ## Theorems -/

/-- C1, counterexample. Reusing the OPEN HIGH-priority ticket `ticketHighA`
(inside the 3-hour window at `now = 10`) with a neutral sentiment score 0
rewrites its priority to LOW: the result is not `max(old, computed) = HIGH`,
so the priority of the reused ticket strictly decreases, refuting the claim.
The source (`app/actions/escalation.py`, reuse branch) assigns
`existing.priority = _pick_priority(sentiment_score)` with no maximum. -/
theorem c1_counterexample :
    (escalateTicket dbReuse 10 "c1" 1 "again" (some 0) 3).toOption.map
        (fun r => (r.2.1.priority, r.2.2)) =
      some (TicketPriority.LOW, false) ∧
    priorityMax TicketPriority.HIGH (pickPriority (some 0)) =
      TicketPriority.HIGH ∧
    priorityLt TicketPriority.LOW TicketPriority.HIGH := by
  refine ⟨by decide, by decide, by decide⟩

/-- C1, amended: when `escalate_ticket` reuses an existing OPEN ticket found
within the repeat window, the resulting priority is exactly
`_pick_priority(sentiment_score)` — computed from the latest sentiment alone,
ignoring the previous priority of the ticket (so it can decrease) — and the call
reports `created = false`. -/
theorem c1_amended_reuse_sets_computed_priority
    (db : EscDB) (now : Time) (conversationId : String) (messageId : ℕ)
    (reason : String) (score : Option Score) (window : ℤ) (t0 : Ticket)
    (hconv : (db.conversations.find? (fun c => c.id == conversationId)).isSome = true)
    (hmsg : (db.messages.find? (fun m => m.id == messageId)).isSome = true)
    (hfind : findExistingTicket db.tickets conversationId
      (now - window * 60) = some t0) :
    (escalateTicket db now conversationId messageId reason score window).toOption.map
        (fun r => (r.2.1.priority, r.2.2)) = some (pickPriority score, false) := by
  obtain ⟨c, hc⟩ := Option.isSome_iff_exists.mp hconv
  obtain ⟨m, hm⟩ := Option.isSome_iff_exists.mp hmsg
  simp [escalateTicket, hc, hm, hfind]
  exact ⟨_, _, rfl, rfl⟩

/-- C1, witness for the amended theorem at the concrete reuse scenario. -/
theorem c1_amended_witness :
    (escalateTicket dbReuse 10 "c1" 1 "again" (some 0) 3).toOption.map
        (fun r => (r.2.1.priority, r.2.2)) =
      some (pickPriority (some 0), false) :=
  c1_amended_reuse_sets_computed_priority dbReuse 10 "c1" 1 "again" (some 0) 3
    ticketHighA (by decide) (by decide) (by decide)

/-- C2. The SLA-monitor selection (`check_sla_breach`,
`app/actions/sla_monitor.py`) has no `sla_breached = false` condition: a
ticket whose breach flag was already set on an earlier tick is selected
again on every later tick as long as it stays OPEN with a past deadline.
Here the already-breached `ticketBreached` is selected at `now = 200`. -/
theorem c2_bug_reselects_breached :
    slaSelect [ticketBreached] 200 = [ticketBreached] ∧
    ticketBreached.sla_breached = true := by
  refine ⟨by decide, by decide⟩

/-- C3. On any tick that selects at least one breached ticket, the loop body
of `check_sla_breach` calls `escalate_ticket(db, ticket)`, which cannot
satisfy the required keyword-only parameters of the callee and raises `TypeError`:
the tick aborts, so no priority is raised, `escalation_level` is never
incremented (no code in the repository increments it), `notify_manager` is
never reached for the ticket, and the commit never runs. -/
theorem c3_bug_tick_raises_typeerror :
    checkSlaBreach [ticketBreached] 200 = .error .typeError ∧
    slaSelect [ticketBreached] 200 ≠ [] := by
  refine ⟨by decide, by decide⟩

/-- C4, counterexample. The message "this is urgent please" contains the
configured escalation keyword "urgent", its sentiment is neutral (0.1), and
no other rule applies; escalating it creates a ticket with priority LOW, not
CRITICAL: no keyword rule contributes to the priority in
`app/actions/escalation.py` (`_pick_priority` reads only the sentiment
score, and no path produces CRITICAL). -/
theorem c4_counterexample :
    containsEscalationKeyword "this is urgent please" = true ∧
    (escalateTicket dbKeyword 10 "c2" 2 "AI escalation" (some 10) 3).toOption.map
        (fun r => r.2.1.priority) = some TicketPriority.LOW ∧
    TicketPriority.LOW ≠ TicketPriority.CRITICAL := by
  refine ⟨by decide, by decide, by decide⟩

/-- C4, amended: every successful `escalate_ticket` call (create or reuse)
gives the ticket priority `_pick_priority(sentiment_score)` — a function of
the latest sentiment score alone, regardless of the message text — and no
sentiment score ever yields CRITICAL; there are no keyword or
repeated-negativity priority rules and no maximum over fired rules. -/
theorem c4_amended_priority_from_sentiment_only
    (db : EscDB) (now : Time) (conversationId : String) (messageId : ℕ)
    (reason : String) (score : Option Score) (window : ℤ)
    (out : EscDB × Ticket × Bool)
    (h : escalateTicket db now conversationId messageId reason score window =
      .ok out) :
    out.2.1.priority = pickPriority score ∧
    pickPriority score ≠ TicketPriority.CRITICAL := by
  constructor
  · cases hc : db.conversations.find? (fun c => c.id == conversationId) with
    | none =>
        simp only [escalateTicket, hc] at h
        exact Except.noConfusion h
    | some c =>
      cases hm : db.messages.find? (fun m => m.id == messageId) with
      | none =>
          simp only [escalateTicket, hc, hm] at h
          exact Except.noConfusion h
      | some m =>
        cases hf : findExistingTicket db.tickets conversationId
            (now - window * 60) with
        | some t0 =>
            simp only [escalateTicket, hc, hm, hf, Except.ok.injEq] at h
            subst h
            simp
        | none =>
            simp only [escalateTicket, hc, hm, hf, Except.ok.injEq] at h
            subst h
            simp
  · cases score with
    | none => simp [pickPriority]
    | some s =>
        simp only [pickPriority]
        split
        · simp
        · split <;> simp

/-- Successful outcome of escalating the keyword message, used by the C4
witness. -/
def keywordEscalationOutcome : EscDB × Ticket × Bool :=
  ((escalateTicket dbKeyword 10 "c2" 2 "AI escalation" (some 10) 3).toOption).getD
    (dbKeyword, ticketHighA, false)

/-- C4, witness for the amended theorem at the keyword-message scenario. -/
theorem c4_amended_witness :
    keywordEscalationOutcome.2.1.priority = pickPriority (some 10) ∧
    pickPriority (some 10) ≠ TicketPriority.CRITICAL :=
  c4_amended_priority_from_sentiment_only dbKeyword 10 "c2" 2 "AI escalation"
    (some 10) 3 keywordEscalationOutcome (by decide)

/-- C5, counterexample. The classifier confidently predicts "IT" (0.9 ≥
0.75) but no department of that name exists and no keyword rule matches:
`route_ticket` still sets `routing_method = "AI"` (it assigns it before
checking that the prediction resolves) while the department stays unset —
the claim requires `routing_method` to be null in this case. -/
theorem c5_counterexample :
    (routeTicket (.ok (some "IT", 90)) dbNoIT 0 "hello there" rticket0).toOption.map
        (fun t => (t.routing_method, t.department_id)) =
      some (some "AI", none) ∧
    some "AI" ≠ (none : Option String) := by
  refine ⟨by decide, by decide⟩

/-- C5, amended: on a normal classifier return, the routing outcome is —
first clause unchanged — "AI" with the predicted department when the truthy
prediction has confidence ≥ 0.75 and resolves to a known department;
otherwise "FALLBACK" with the department of a matching keyword rule; otherwise
the department is left unchanged while `routing_method` is "AI" whenever the
prediction was truthy with confidence ≥ 0.75 (even though it did not
resolve), and null only otherwise. -/
theorem c5_amended_routing_outcome
    (aiName : Option String) (confidence : Score) (db : RoutingDB)
    (now : Time) (messageContent : String) (ticket : RTicket) :
    (routeTicket (.ok (aiName, confidence)) db now messageContent ticket).toOption.map
        (fun t => (t.routing_method, t.department_id)) =
      some (amendedRoutingOutcome aiName confidence db messageContent ticket) := by
  unfold routeTicket amendedRoutingOutcome
  cases hb : strTruthy aiName && decide (AI_CONFIDENCE_THRESHOLD ≤ confidence) with
  | false =>
      simp only [hb, Bool.false_eq_true, if_neg, reduceIte]
      cases hd : detectDepartment db messageContent <;> simp [hd] <;>
        exact ⟨_, rfl, rfl, rfl⟩
  | true =>
      simp only [hb, reduceIte]
      cases hf : db.departments.find? (fun d => some d.name == aiName) with
      | some d =>
          simp [hf]
          exact ⟨_, rfl, rfl, rfl⟩
      | none =>
          cases hd : detectDepartment db messageContent <;> simp [hf, hd] <;>
            exact ⟨_, rfl, rfl, rfl⟩

/-- C6, counterexample. The classifier raises a transient error while a
keyword rule ("password" → IT) applies to the message: `route_ticket` has no
handler, so the error propagates to the caller and the keyword fallback never
runs, refuting the claim that the error is caught inside the routing
operation. -/
theorem c6_counterexample :
    routeTicket (.error .transientDependencyError) dbPassword 0
        "password reset" rticket0 = .error .transientDependencyError ∧
    (detectDepartment dbPassword "password reset").isSome = true := by
  refine ⟨by decide, by decide⟩

/-- C6, amended: `route_ticket` does not catch classifier errors. When
`classify_department` raises, the same error propagates unchanged out of
`route_ticket` (skipping the keyword fallback and every later step); only a
normal classifier return reaches the fallback logic. -/
theorem c6_amended_classifier_error_propagates
    (e : PyError) (db : RoutingDB) (now : Time) (messageContent : String)
    (ticket : RTicket) :
    routeTicket (.error e) db now messageContent ticket = .error e := by
  rfl

/-- C7, counterexample. A verified context whose only role is SUPERADMIN
resolves to allowed visibility {PUBLIC} — not {PUBLIC, INTERNAL,
CONFIDENTIAL} as the claim states: `_resolve_visibility`
(`app/auth/context.py`) tests exact membership of "ADMIN" only, and
"SUPERADMIN" is not the element "ADMIN" and does not start with "HR". -/
theorem c7_counterexample :
    (mkUserContext "u1" none (some ["SUPERADMIN"]) none true).toOption.map
        (fun c => c.allowed_visibility) = some ["PUBLIC"] ∧
    "CONFIDENTIAL" ∉ ["PUBLIC"] ∧ "INTERNAL" ∉ ["PUBLIC"] := by
  refine ⟨by decide, by decide, by decide⟩

/-- C7, amended: for every context built by `UserContext.__init__`, the
allowed visibility set is {PUBLIC, INTERNAL, CONFIDENTIAL} exactly when the
uppercased role set contains the element "ADMIN" (SUPERADMIN does not
qualify); when it does not, the set is {PUBLIC, INTERNAL} exactly when some
role starts with "HR", and {PUBLIC} otherwise. -/
theorem c7_amended_visibility
    (userId : String) (role : Option String) (roles : Option (List String))
    (department : Option String) (isVerified : Bool) (ctx : UserContext)
    (h : mkUserContext userId role roles department isVerified = .ok ctx) :
    (ctx.allowed_visibility = ["PUBLIC", "INTERNAL", "CONFIDENTIAL"] ↔
      ctx.roles.contains "ADMIN" = true) ∧
    (ctx.roles.contains "ADMIN" = false →
      (ctx.allowed_visibility = ["PUBLIC", "INTERNAL"] ↔
        ctx.roles.any (fun r => strStartsWith r "HR") = true)) ∧
    (ctx.roles.contains "ADMIN" = false →
      ctx.roles.any (fun r => strStartsWith r "HR") = false →
      ctx.allowed_visibility = ["PUBLIC"]) := by
  have hvis : ctx.allowed_visibility = resolveVisibility ctx.roles := by
    unfold mkUserContext at h
    split at h
    · exact Except.noConfusion h
    · simp only [Except.ok.injEq] at h
      subst h
      rfl
  rw [hvis]
  unfold resolveVisibility
  cases ha : ctx.roles.contains "ADMIN" with
  | true => simp [ha]
  | false =>
      cases hh : ctx.roles.any (fun r => strStartsWith r "HR") with
      | true => simp [ha, hh]
      | false => simp [ha, hh]

/-- Context produced for roles `["hr_team"]`, used by the C7 witness. -/
def ctxHr : UserContext :=
  { user_id := "u1", roles := ["HR_TEAM"], department := "GENERAL",
    is_verified := true, allowed_visibility := ["PUBLIC", "INTERNAL"] }

/-- C7, witness for the amended theorem at an HR-role context. -/
theorem c7_amended_witness :
    (ctxHr.allowed_visibility = ["PUBLIC", "INTERNAL", "CONFIDENTIAL"] ↔
      ctxHr.roles.contains "ADMIN" = true) ∧
    (ctxHr.roles.contains "ADMIN" = false →
      (ctxHr.allowed_visibility = ["PUBLIC", "INTERNAL"] ↔
        ctxHr.roles.any (fun r => strStartsWith r "HR") = true)) ∧
    (ctxHr.roles.contains "ADMIN" = false →
      ctxHr.roles.any (fun r => strStartsWith r "HR") = false →
      ctxHr.allowed_visibility = ["PUBLIC"]) :=
  c7_amended_visibility "u1" none (some ["hr_team"]) none true ctxHr (by decide)

/-- Test for an absent or unverified retrieval context (the fail-closed
condition shared by `build_rbac_filters` and `retrieve_context`). -/
def isUnverifiedOrAbsent : Option UserContext → Bool
  | none => true
  | some c => !c.is_verified

/-- C8: with an absent or unverified user context, `build_rbac_filters`
raises PermissionError before any predicate is constructed, and
`retrieve_context` raises PermissionError before building a filter or
invoking the vector search (the result is the error for every possible
search collaborator, so no search output is ever used); neither function
downgrades the error. -/
theorem c8_fail_closed
    (search : String → ℕ → Option QFilter → List String) (query : String)
    (userContext : Option UserContext) (ticketId : Option String) (topK : ℕ)
    (h : isUnverifiedOrAbsent userContext = true) :
    buildRbacFilters userContext = .error .permissionError ∧
    retrieveContext search query userContext ticketId topK =
      .error .permissionError := by
  cases userContext with
  | none => exact ⟨rfl, rfl⟩
  | some ctx =>
      simp only [isUnverifiedOrAbsent, Bool.not_eq_eq_eq_not, Bool.not_true] at h
      constructor
      · simp [buildRbacFilters, h]
      · simp [retrieveContext, h]

/-- C8, witness at a present-but-unverified context and a constant search
collaborator. -/
theorem c8_witness :
    buildRbacFilters (some unverifiedCtx) = .error .permissionError ∧
    retrieveContext (fun _ _ _ => ["hit"]) "q" (some unverifiedCtx) none 5 =
      .error .permissionError :=
  c8_fail_closed (fun _ _ _ => ["hit"]) "q" (some unverifiedCtx) none 5
    (by decide)

/-- C9, counterexample. In `dbAgents`, both "a2" and "a1" are active AGENT
candidates; "a2" (first in database row order) holds one OPEN ticket
while "a1" holds none, yet `_pick_agent_for_department` returns "a2": the
least-open-tickets scoring is dead code (guarded by
`hasattr(Ticket, "assigned_user_id")`, which is false on the model), so the
returned agent does not have the minimum OPEN-ticket count among the
candidates, refuting the claim. -/
theorem c9_counterexample :
    pickAgentForDepartment dbAgents none = some "a2" ∧
    "a1" ∈ agentCandidates dbAgents 1 ∧
    openAssignedCount dbAgents.tickets "a1" <
      openAssignedCount dbAgents.tickets "a2" := by
  refine ⟨by decide, by decide, by decide⟩

/-- C9, amended: a non-null result of `_pick_agent_for_department` is an
active user holding the AGENT role (via a `user_roles` row for the role
whose lowercased name is "agent"), and the result is independent of the
requested department (the department filter is dead code, guarded by
`hasattr(User, "department_id")` which is false on the model); the selection
is the first candidate in database row order, not the least-loaded
agent, and ties are not broken by agent id. -/
theorem c9_amended_first_active_agent
    (db : EscDB) (departmentId : Option ℕ) (uid : String)
    (h : pickAgentForDepartment db departmentId = some uid) :
    (∃ u, u ∈ db.users ∧ u.id = uid ∧ u.is_active = true ∧
      ∃ r, r ∈ db.roles ∧ strLower r.name = "agent" ∧
        ∃ ur, ur ∈ db.user_roles ∧ ur.user_id = uid ∧ ur.role_id = r.id) ∧
    (∀ d2 : Option ℕ, pickAgentForDepartment db d2 = some uid) := by
  constructor
  · cases hr : db.roles.find? (fun r => strLower r.name == "agent") with
    | none =>
        simp only [pickAgentForDepartment, hr] at h
        exact Option.noConfusion h
    | some agentRole =>
        simp only [pickAgentForDepartment, hr, userHasDepartmentIdAttr,
          Bool.and_false, Bool.false_eq_true, reduceIte] at h
        have hne : (agentCandidates db agentRole.id).isEmpty = false := by
          cases he : (agentCandidates db agentRole.id).isEmpty with
          | true => rw [he] at h; simp at h
          | false => rfl
        rw [hne] at h
        simp only [Bool.false_eq_true, reduceIte] at h
        have hmem : uid ∈ agentCandidates db agentRole.id := by
          obtain ⟨ys, hys⟩ := List.head?_eq_some_iff.mp h
          rw [hys]; exact List.mem_cons_self _ _
        unfold agentCandidates at hmem
        obtain ⟨u, hu, huid⟩ := List.mem_map.mp hmem
        obtain ⟨humem, hpred⟩ := List.mem_filter.mp hu
        obtain ⟨hact, hany⟩ := Bool.and_eq_true_iff.mp hpred
        obtain ⟨ur, hur, hurpred⟩ := List.any_eq_true.mp hany
        obtain ⟨hu1, hu2⟩ := Bool.and_eq_true_iff.mp hurpred
        refine ⟨u, humem, huid, hact, agentRole,
          List.mem_of_find?_eq_some hr, ?_, ur, hur, ?_, ?_⟩
        · have hrp := List.find?_some hr
          exact eq_of_beq hrp
        · rw [eq_of_beq hu1, huid]
        · exact eq_of_beq hu2
  · intro d2
    rw [← h]
    unfold pickAgentForDepartment
    cases db.roles.find? (fun r => strLower r.name == "agent") <;>
      simp [userHasDepartmentIdAttr]

/-- C9, witness for the amended theorem at the concrete two-agent state. -/
theorem c9_amended_witness :
    (∃ u, u ∈ dbAgents.users ∧ u.id = "a2" ∧ u.is_active = true ∧
      ∃ r, r ∈ dbAgents.roles ∧ strLower r.name = "agent" ∧
        ∃ ur, ur ∈ dbAgents.user_roles ∧ ur.user_id = "a2" ∧
          ur.role_id = r.id) ∧
    (∀ d2 : Option ℕ, pickAgentForDepartment dbAgents d2 = some "a2") :=
  c9_amended_first_active_agent dbAgents none "a2" (by decide)

/-- C10: the unconditional uniqueness of `tickets.conversation_id` declared
by `app/models/ticket.py` implies the at-most-one-OPEN-ticket-per-
window invariant for every now/window; it is strictly stronger (a table with
a CLOSED and an OPEN ticket of the same conversation satisfies the invariant
for every now/window but violates the constraint); and inserting a second
ticket for a conversation that already has any ticket — whatever its status
or age — fails with an integrity error. -/
theorem c10_unique_constraint_stronger :
    (∀ ts : List Ticket, ticketsConversationIdUnique ts →
      ∀ now window : Time, atMostOneOpenPerWindow ts now window) ∧
    ((∀ now window : Time,
        atMostOneOpenPerWindow [ticketClosedX, ticketOpenX] now window) ∧
      ¬ ticketsConversationIdUnique [ticketClosedX, ticketOpenX]) ∧
    (∀ (ts : List Ticket) (t : Ticket),
      (∃ u, u ∈ ts ∧ u.conversation_id = t.conversation_id) →
      insertTicket ts t = .error .integrityError) := by
  refine ⟨?_, ⟨?_, by decide⟩, ?_⟩
  · intro ts hu now window
    exact List.Nodup.sublist
      ((List.filter_sublist ts).map (fun t => t.conversation_id)) hu
  · intro now window
    unfold atMostOneOpenPerWindow
    have h1 : (ticketClosedX.status == TicketStatus.OPEN &&
        decide (now - window ≤ ticketClosedX.created_at)) = false := by
      have : (ticketClosedX.status == TicketStatus.OPEN) = false := by decide
      rw [this, Bool.false_and]
    rw [List.filter_cons, h1]
    simp only [Bool.false_eq_true, reduceIte]
    rw [List.filter_cons, List.filter_nil]
    cases decide (now - window ≤ ticketOpenX.created_at) <;> simp [ticketOpenX]
  · intro ts t ⟨u, hu, he⟩
    have hany : ts.any (fun u => u.conversation_id == t.conversation_id) = true :=
      List.any_eq_true.mpr ⟨u, hu, beq_iff_eq.mpr he⟩
    simp [insertTicket, hany]

/-- C10, witness: inserting the OPEN ticket `ticketOpenX` into a table that
already holds the CLOSED ticket `ticketClosedX` of the same conversation is
rejected. -/
theorem c10_witness :
    insertTicket [ticketClosedX] ticketOpenX = .error .integrityError :=
  c10_unique_constraint_stronger.2.2 [ticketClosedX] ticketOpenX
    ⟨ticketClosedX, by decide, by decide⟩

end AiChatBot
